import Mathlib

/-!
Verification development for the mudul-ai image editor.

The definitions below are shallow embeddings of the program's core:
the client editor reducer and its polling effect (components/image-editor,
src/unnamed/part_006), the retrying Gemini client
(src/src/lib/inngest-client.ts, GeminiClient.editImageWithRetry), the
background job handler (processImageFunction), and the two server actions
(src/src/actions/image-processing-actions.ts).
-/

namespace MudulAI

/-! ## Client editor state machine (src/unnamed/part_006) -/

/-- The editor workflow statuses, the Processing_Status union of
src/unnamed/part_004. -/
inductive EditorStatus where
  | IDLE
  | VALIDATING
  | READY
  | PROCESSING
  | SUCCESS
  | ERROR
  deriving DecidableEq, Repr

/-- An uploaded file as held by the reducer state. The browser File handle is
modelled by a numeric tag and the object-URL string produced by
URL.createObjectURL by a numeric resource id; the errors array of the source
interface is always empty where the reducer builds this value and is omitted. -/
structure UploadedFile where
  file : Nat
  preview : Nat
  deriving DecidableEq, Repr

/-- ImageEditorState of src/unnamed/part_004: the complete reducer state. -/
structure ImageEditorState where
  status : EditorStatus
  uploadedFile : Option UploadedFile
  prompt : String
  jobId : Option String
  processedImageUrl : Option String
  error : Option String
  deriving DecidableEq, Repr

/-- ImageEditorAction of src/unnamed/part_004: the discriminated union of
reducer actions, payloads inlined. -/
inductive ImageEditorAction where
  | VALIDATION_STARTED
  | VALIDATION_SUCCESS (file : Nat)
  | VALIDATION_FAILURE (error : String)
  | SET_PROMPT (prompt : String)
  | PROCESS_IMAGE_STARTED
  | PROCESS_IMAGE_DISPATCH_SUCCESS (jobId : String)
  | PROCESS_IMAGE_POLLING_SUCCESS (imageUrl : String)
  | PROCESS_IMAGE_FAILURE (error : String)
  | RESET
  deriving DecidableEq, Repr

/-- A call the reducer makes into the browser URL registry:
URL.createObjectURL(file) returning url, or URL.revokeObjectURL(url). -/
inductive UrlEffect where
  | create (file : Nat) (url : Nat)
  | revoke (url : Nat)
  deriving DecidableEq, Repr

/-- initialState of src/unnamed/part_006 lines 55-62. -/
def initialState : ImageEditorState :=
  { status := .IDLE
    uploadedFile := none
    prompt := ""
    jobId := none
    processedImageUrl := none
    error := none }

/-- imageEditorReducer of src/unnamed/part_006 lines 64-128, with the browser
URL registry made explicit: next is the next fresh object-URL id (so
URL.createObjectURL allocates id next and bumps the counter), and the returned
list records the URL.createObjectURL / URL.revokeObjectURL calls the executed
case performs. The RESET case revokes exactly when state.uploadedFile holds a
preview, matching the truthiness test on state.uploadedFile?.preview. -/
def imageEditorReducerU (state : ImageEditorState) (next : Nat)
    (action : ImageEditorAction) : ImageEditorState × Nat × List UrlEffect :=
  match action with
  | .VALIDATION_STARTED =>
      ({ initialState with status := .VALIDATING }, next, [])
  | .VALIDATION_SUCCESS file =>
      ({ state with
          status := .READY
          error := none
          uploadedFile := some { file := file, preview := next } },
        next + 1, [.create file next])
  | .VALIDATION_FAILURE e =>
      ({ state with status := .IDLE, error := some e }, next, [])
  | .SET_PROMPT p =>
      ({ state with prompt := p }, next, [])
  | .PROCESS_IMAGE_STARTED =>
      ({ state with status := .PROCESSING, error := none, jobId := none },
        next, [])
  | .PROCESS_IMAGE_DISPATCH_SUCCESS j =>
      ({ state with jobId := some j }, next, [])
  | .PROCESS_IMAGE_POLLING_SUCCESS url =>
      ({ state with
          status := .SUCCESS
          processedImageUrl := some url
          jobId := none }, next, [])
  | .PROCESS_IMAGE_FAILURE e =>
      ({ state with status := .ERROR, error := some e, jobId := none },
        next, [])
  | .RESET =>
      match state.uploadedFile with
      | some f => (initialState, next, [.revoke f.preview])
      | none => (initialState, next, [])

/-- The state component of the reducer, for transitions whose resulting state
does not depend on the URL counter. -/
def imageEditorReducer (state : ImageEditorState)
    (action : ImageEditorAction) : ImageEditorState :=
  (imageEditorReducerU state 0 action).1

/-- The polling timer condition of src/unnamed/part_006 line 224: the
useEffect arms the setInterval exactly when state.jobId is set and
state.status is PROCESSING, and its cleanup clears it otherwise. -/
def pollTimerArmed (state : ImageEditorState) : Bool :=
  state.jobId.isSome && state.status == .PROCESSING

/-- A Processing-state instance with an in-flight job, used to exercise the
reducer on a concrete post-dispatch state. -/
def procStateA : ImageEditorState :=
  { status := .PROCESSING
    uploadedFile := some { file := 7, preview := 0 }
    prompt := "make it blue"
    jobId := some "job-A"
    processedImageUrl := none
    error := none }

/-! ## Retrying executor (src/src/lib/inngest-client.ts, GeminiClient) -/

/-- Character-list prefix test, auxiliary to strIncludes. -/
def hasPrefixL : List Char → List Char → Bool
  | _, [] => true
  | [], _ :: _ => false
  | c :: cs, p :: ps => (c == p) && hasPrefixL cs ps

/-- Character-list infix test, auxiliary to strIncludes. -/
def hasInfixL : List Char → List Char → Bool
  | [], pat => pat.isEmpty
  | c :: rest, pat => hasPrefixL (c :: rest) pat || hasInfixL rest pat

/-- JavaScript String.prototype.includes: pat occurs contiguously in s. -/
def strIncludes (s pat : String) : Bool :=
  hasInfixL s.data pat.data

/-- An error thrown by an edit attempt. message models error.message; the
string tested by error.toString().includes is "Error: " ++ message, which
contains "rate limit" exactly when the message does. -/
structure EditError where
  message : String
  deriving DecidableEq, Repr

/-- The rate-limit classification of editImageWithRetry lines 144-146:
error.message includes "429", or the error's string form includes
"rate limit". -/
def isRateLimitError (e : EditError) : Bool :=
  strIncludes e.message "429" || strIncludes ("Error: " ++ e.message) "rate limit"

/-- The edited-image payload returned by the Gemini client and the job. -/
structure EditedImage where
  imageData : String
  mimeType : String
  deriving DecidableEq, Repr

/-- The retry loop of editImageWithRetry (lines 135-166), entered at a given
attempt index. op gives the outcome of each attempt (indexed by attempt
number). Returns the final outcome, the number of times op was invoked, and
the total injected backoff delay in milliseconds (Math.pow(2, attempt) * 1000
before each retry). A rate-limit error with attempt < maxRetries - 1 sleeps
and continues; any other error, or the final attempt's error, is rethrown at
once. The branch with op never invoked (loop body not entered, then
throw lastError with lastError still undefined) happens only for
maxRetries = 0. -/
def retryFrom (op : Nat → Except EditError EditedImage) (maxRetries : Nat) :
    Nat → Except EditError EditedImage × Nat × Nat
  | attempt =>
    if _h : attempt < maxRetries then
      match op attempt with
      | .ok v => (.ok v, 1, 0)
      | .error e =>
        if isRateLimitError e = true ∧ attempt < maxRetries - 1 then
          let rest := retryFrom op maxRetries (attempt + 1)
          (rest.1, rest.2.1 + 1, rest.2.2 + 2 ^ attempt * 1000)
        else
          (.error e, 1, 0)
    else
      (.error { message := "undefined" }, 0, 0)
  termination_by attempt => maxRetries - attempt
  decreasing_by omega

/-- editImageWithRetry (lines 129-167): the loop started at attempt 0; the
source's default maxRetries is 3. -/
def editImageWithRetry (op : Nat → Except EditError EditedImage)
    (maxRetries : Nat) : Except EditError EditedImage × Nat × Nat :=
  retryFrom op maxRetries 0

/-- An operation that fails every attempt with a 429 rate-limit error. -/
def alwaysRateLimited : Nat → Except EditError EditedImage :=
  fun _ => .error { message := "429 Too Many Requests" }

/-! ## Background job runner (src/src/lib/inngest-client.ts,
processImageFunction) -/

/-- A step checkpoint: recorded outputs of named steps. Modelled from the
spec: the checkpoint store belongs to the hosting platform's step engine
(the Inngest SDK), which is not part of this repository; per spec section 4.2
it maps each step name to the step's recorded successful output. -/
abbrev Checkpoint : Type := List (String × EditedImage)

/-- Modelled from the spec: the platform's step.run memoisation (part of the
Inngest SDK, not of this repository). Per spec section 4.2, a step whose
checkpoint already recorded success MUST NOT be re-executed — its previously
recorded output is reused; otherwise the wrapped operation runs once and its
output is recorded. Returns the step output, the number of invocations of
the wrapped operation, and the updated checkpoint. -/
def stepRun (cp : Checkpoint) (name : String) (op : Unit → EditedImage) :
    EditedImage × Nat × Checkpoint :=
  match cp.lookup name with
  | some v => (v, 0, cp)
  | none => (op (), 1, (name, op ()) :: cp)

/-- Handler of processImageFunction (src/src/lib/inngest-client.ts lines
18-28), with the step engine explicit: one step "call-gemini-api" wrapping
the EditBackend call, then the step.sleep "wait-a-moment" settle delay
(which invokes no backend), and the step result returned as the body.
Returns the body, the number of EditBackend invocations, and the final
checkpoint. -/
def processImageFunction (backend : Unit → EditedImage) (cp : Checkpoint) :
    EditedImage × Nat × Checkpoint :=
  let r := stepRun cp "call-gemini-api" backend
  (r.1, r.2.1, r.2.2)

/-- A previously recorded successful body of the edit step. -/
def recordedBody : EditedImage :=
  { imageData := "BBB", mimeType := "image/png" }

/-- A checkpoint in which the single edit step already recorded success. -/
def checkpointDone : Checkpoint :=
  [("call-gemini-api", recordedBody)]

/-! ## Server actions (src/src/actions/image-processing-actions.ts) -/

/-- ActionState of the repository's action types: success with message and
data, or failure with message only. -/
inductive ActionState (α : Type) where
  | success (message : String) (data : α)
  | failure (message : String)
  deriving DecidableEq, Repr

/-- The isSuccess discriminant of ActionState. -/
def ActionState.isSuccess {α : Type} : ActionState α → Bool
  | .success _ _ => true
  | .failure _ => false

/-- ProcessImageRequest of src/src/types/image-types.ts. -/
structure ProcessImageRequest where
  imageData : String
  prompt : String
  mimeType : String
  deriving DecidableEq, Repr

/-- ProcessImageResponse of src/src/types/image-types.ts. -/
structure ProcessImageResponse where
  jobId : String
  estimatedTime : Nat
  deriving DecidableEq, Repr

/-- The image.process event processImageAction sends to the runner. -/
structure InngestEvent where
  name : String
  imageData : String
  prompt : String
  mimeType : String
  deriving DecidableEq, Repr

/-- processImageAction (lines 25-65). send models inngest.send: it returns
the list of created event ids or throws. The JavaScript falsiness tests on
the three string fields hold exactly for the empty string. A send that
throws, or an absent or empty first id (a falsy ids[0], making the action
throw into its own catch), yields the dispatch-failure message. Returns the
ActionState and the list of events emitted to the runner. -/
def processImageAction (send : InngestEvent → Except String (List String))
    (request : ProcessImageRequest) :
    ActionState ProcessImageResponse × List InngestEvent :=
  if request.imageData = "" ∨ request.prompt = "" ∨ request.mimeType = "" then
    (.failure "بيانات الطلب غير كاملة.", [])
  else
    let ev : InngestEvent :=
      { name := "image.process"
        imageData := request.imageData
        prompt := request.prompt
        mimeType := request.mimeType }
    match send ev with
    | .error _ =>
        (.failure "فشل في بدء معالجة الصورة. يرجى المحاولة مرة أخرى.", [ev])
    | .ok ids =>
        match ids.head? with
        | none =>
            (.failure "فشل في بدء معالجة الصورة. يرجى المحاولة مرة أخرى.",
              [ev])
        | some jobId =>
            if jobId = "" then
              (.failure "فشل في بدء معالجة الصورة. يرجى المحاولة مرة أخرى.",
                [ev])
            else
              (.success "تم بدء معالجة الصورة بنجاح."
                { jobId := jobId, estimatedTime := 60 }, [ev])

/-- The four-valued job status enum of src/src/types/image-types.ts. -/
inductive JobStatus where
  | PENDING
  | PROCESSING
  | COMPLETED
  | FAILED
  deriving DecidableEq, Repr

/-- The raw-to-enum status mapping of getProcessingStatusAction lines 85-88:
the status variable starts as PENDING (the default branch) and the three
recognized raw statuses overwrite it. -/
def mapInngestStatus (raw : String) : JobStatus :=
  if raw = "completed" then .COMPLETED
  else if raw = "failed" then .FAILED
  else if raw = "running" then .PROCESSING
  else .PENDING

/-- An Inngest job record as read by getProcessingStatusAction: the raw
status string, the optional recorded failure message (the error message
reached through job.data.event.data, absent when that shape is missing), and
the optional output body (job.output reached through its body property). -/
structure InngestJob where
  status : String
  errorMessage : Option String
  outputBody : Option EditedImage
  deriving DecidableEq, Repr

/-- ProcessingStatusResponse of src/src/types/image-types.ts. -/
structure ProcessingStatusResponse where
  status : JobStatus
  result : Option EditedImage
  error : Option String
  deriving DecidableEq, Repr

/-- getProcessingStatusAction (lines 74-111). get models inngest.jobs.get:
Except.error means the lookup threw (caught by the action's try/catch),
.ok none that the id resolves to no job. Total by construction, mirroring
the source's try/catch: every case returns a structured ActionState. -/
def getProcessingStatusAction
    (get : String → Except String (Option InngestJob)) (jobId : String) :
    ActionState ProcessingStatusResponse :=
  match get jobId with
  | .error _ => .failure "فشل في الحصول على حالة المعالجة."
  | .ok none => .failure "لم يتم العثور على المهمة."
  | .ok (some job) =>
      .success "تم استرداد حالة المهمة بنجاح."
        { status := mapInngestStatus job.status
          result := job.outputBody
          error :=
            if job.status = "failed" then
              some (job.errorMessage.getD "فشل غير معروف في المهمة.")
            else none }

/-! ## Polling schedule (src/unnamed/part_006 lines 223-283) -/

/-- Fire times of the polling loop: setInterval with period intervalMs
(5000 in the component) invokes its callback at intervalMs * (k + 1) for
k = 0, 1, 2, ... on this fixed schedule, whether or not the promise returned
by the previous invocation of the async callback has resolved. -/
def fireTime (intervalMs k : Nat) : Nat := intervalMs * (k + 1)

/-- Query k — issued by the k-th timer fire, each fire calling
getProcessingStatusAction exactly once — is in flight at time t when it has
been issued and its response, arriving latencyMs after issue, has not yet
arrived. -/
def queryInFlight (intervalMs latencyMs t k : Nat) : Prop :=
  fireTime intervalMs k ≤ t ∧ t < fireTime intervalMs k + latencyMs

instance (intervalMs latencyMs t k : Nat) :
    Decidable (queryInFlight intervalMs latencyMs t k) :=
  inferInstanceAs (Decidable (_ ∧ _))

/-! ## Preview-resource traces of the editor reducer -/

/-- A reducer world: the reducer state together with the browser URL
registry's fresh-id counter. -/
structure World where
  st : ImageEditorState
  next : Nat
  deriving DecidableEq, Repr

/-- One dispatched action: the reducer applied to the world, returning the
new world and the URL-registry calls performed. -/
def stepW (w : World) (a : ImageEditorAction) : World × List UrlEffect :=
  let r := imageEditorReducerU w.st w.next a
  ({ st := r.1, next := r.2.1 }, r.2.2)

/-- A dispatched action sequence: the final world and all URL-registry calls
performed along the way. -/
def runW : World → List ImageEditorAction → World × List UrlEffect
  | w, [] => (w, [])
  | w, a :: as =>
    let s := stepW w a
    let r := runW s.1 as
    (r.1, s.2 ++ r.2)

/-- The object URLs allocated by a list of URL-registry calls. -/
def createdUrls (es : List UrlEffect) : List Nat :=
  es.filterMap fun e =>
    match e with
    | .create _ u => some u
    | .revoke _ => none

/-- The object URLs released by a list of URL-registry calls. -/
def revokedUrls (es : List UrlEffect) : List Nat :=
  es.filterMap fun e =>
    match e with
    | .create _ _ => none
    | .revoke u => some u

/-- The preview object URLs held by a reducer state: the uploaded file's
preview when one is present. -/
def previews (s : ImageEditorState) : List Nat :=
  match s.uploadedFile with
  | some f => [f.preview]
  | none => []

/-- The component's dispatch discipline: the upload surface that emits
VALIDATION_STARTED and VALIDATION_SUCCESS is rendered only while status is
IDLE or VALIDATING (src/unnamed/part_006 lines 325-330), states in which the
machine holds no uploaded file, so those two actions are only dispatched
while no preview is held; every other action is unrestricted. -/
def admissible (w : World) : ImageEditorAction → Bool
  | .VALIDATION_STARTED => w.st.uploadedFile == none
  | .VALIDATION_SUCCESS _ => w.st.uploadedFile == none
  | _ => true

/-- A whole action sequence obeying the component's dispatch discipline. -/
def admissibleTrace : World → List ImageEditorAction → Bool
  | _, [] => true
  | w, a :: as => admissible w a && admissibleTrace (stepW w a).1 as

/-- The resource invariant tying a world to the URL-registry calls performed
since the initial world: held previews are below the fresh counter, every
allocated URL is allocated at most once and is either the currently held
preview or has been revoked (and vice versa), and URLs at or above the
counter are untouched. -/
def WInv (w : World) (es : List UrlEffect) : Prop :=
  (∀ f, w.st.uploadedFile = some f → f.preview < w.next) ∧
  (∀ u, (createdUrls es).count u =
      (if u ∈ previews w.st then 1 else 0) + (revokedUrls es).count u) ∧
  (∀ u, w.next ≤ u → (createdUrls es).count u = 0) ∧
  (∀ u, (createdUrls es).count u ≤ 1)

/-- A concrete dispatch sequence obeying the component's discipline: upload,
prompt edit, processing start, reset (revoking the preview), then a fresh
upload surface interaction. -/
def trC7 : List ImageEditorAction :=
  [.VALIDATION_SUCCESS 5, .SET_PROMPT "make it blue", .PROCESS_IMAGE_STARTED,
    .RESET, .VALIDATION_STARTED]

end MudulAI

namespace MudulAI

/-! ## Claim theorems: client state machine -/

theorem reducer_reset_eq_initialState (s : ImageEditorState) (n : Nat) :
    (imageEditorReducerU s n .RESET).1 = initialState := by
  cases hu : s.uploadedFile <;> simp [imageEditorReducerU, hu]


/-- C1, counterexample. From the reachable Processing state procStateA
(job "job-A" in flight), applying RESET returns the machine to Idle; if the
in-flight status query then resolves as completed and dispatches
PROCESS_IMAGE_POLLING_SUCCESS, the reducer does not leave the state at Idle:
the late result is applied (the claimed Processing-only guard does not exist
in the reducer). -/
theorem stale_poll_after_reset_not_idle :
    (imageEditorReducer (imageEditorReducer procStateA .RESET)
        (.PROCESS_IMAGE_POLLING_SUCCESS "data:image/png;base64,BBB")).status ≠
      EditorStatus.IDLE := by
  decide

/-- C1, amended. If a RESET is applied while a status query is in flight and
that query later resolves as completed (dispatching the polling-success event
after the machine has returned to Idle), the machine does not stay Idle: the
reducer applies PROCESS_IMAGE_POLLING_SUCCESS unconditionally, so the machine
moves to Success with the late image stored and null job id — the late result
is applied, not discarded. -/
theorem stale_poll_after_reset_applied (s : ImageEditorState) (url : String) :
    imageEditorReducer (imageEditorReducer s .RESET)
        (.PROCESS_IMAGE_POLLING_SUCCESS url) =
      { status := .SUCCESS, uploadedFile := none, prompt := "",
        jobId := none, processedImageUrl := some url, error := none } := by
  show imageEditorReducer (imageEditorReducerU s 0 .RESET).1 _ = _
  rw [reducer_reset_eq_initialState]
  rfl

/-- C8. Dispatching RESET from every state (and any URL-counter value) yields
the Idle initial state — null uploaded file, null job id, null processed
image, null error — the poll-timer condition is disarmed, and the transition
revokes the held preview resource exactly when one was held. -/
theorem reset_yields_idle (s : ImageEditorState) (n : Nat) :
    (imageEditorReducerU s n .RESET).1 = initialState ∧
    (imageEditorReducerU s n .RESET).1.status = .IDLE ∧
    (imageEditorReducerU s n .RESET).1.uploadedFile = none ∧
    (imageEditorReducerU s n .RESET).1.jobId = none ∧
    (imageEditorReducerU s n .RESET).1.processedImageUrl = none ∧
    (imageEditorReducerU s n .RESET).1.error = none ∧
    pollTimerArmed (imageEditorReducerU s n .RESET).1 = false ∧
    (imageEditorReducerU s n .RESET).2.2 =
      (match s.uploadedFile with
        | some f => [UrlEffect.revoke f.preview]
        | none => []) := by
  cases hu : s.uploadedFile <;>
    simp [imageEditorReducerU, hu, initialState, pollTimerArmed]

/-- C9. For every state (not only Ready), every URL-counter value and every
SET_PROMPT action, the reducer changes only the prompt field: status,
uploadedFile, jobId, processedImageUrl and error are unchanged, the prompt
becomes the payload, and no URL-registry effect is performed. -/
theorem set_prompt_frame (s : ImageEditorState) (n : Nat) (p : String) :
    (imageEditorReducerU s n (.SET_PROMPT p)).1.status = s.status ∧
    (imageEditorReducerU s n (.SET_PROMPT p)).1.uploadedFile = s.uploadedFile ∧
    (imageEditorReducerU s n (.SET_PROMPT p)).1.jobId = s.jobId ∧
    (imageEditorReducerU s n (.SET_PROMPT p)).1.processedImageUrl =
      s.processedImageUrl ∧
    (imageEditorReducerU s n (.SET_PROMPT p)).1.error = s.error ∧
    (imageEditorReducerU s n (.SET_PROMPT p)).1.prompt = p ∧
    (imageEditorReducerU s n (.SET_PROMPT p)).2 = (n, []) :=
  ⟨rfl, rfl, rfl, rfl, rfl, rfl, rfl⟩

/-! ## Claim theorems: retrying executor -/

theorem retryFrom_calls_le (op : Nat → Except EditError EditedImage)
    (m : Nat) : ∀ k a, m - a ≤ k → (retryFrom op m a).2.1 ≤ m - a := by
  intro k
  induction k with
  | zero =>
    intro a h
    have hm : ¬ a < m := by omega
    rw [retryFrom]
    simp [hm]
  | succ k ih =>
    intro a h
    rw [retryFrom]
    by_cases hm : a < m
    · simp only [hm, dite_true]
      cases hop : op a with
      | ok v => simp; omega
      | error e =>
        by_cases hr : isRateLimitError e = true ∧ a < m - 1
        · have := ih (a + 1) (by omega)
          simp [hr.1, hr.2]
          omega
        · simp [hr]
          omega
    · simp [hm]

/-- C2. For an operation that fails every attempt with a rate-limit error,
editImageWithRetry with maxRetries 3 invokes the operation exactly 3 times
and injects a total backoff delay of exactly 1000 ms + 2000 ms (no third
delay after the final attempt); and for every operation and every attempt
bound, the operation is invoked at most that many times. -/
theorem retry_exhaustion_and_bound (op : Nat → Except EditError EditedImage)
    (h : ∀ i, ∃ e, op i = .error e ∧ isRateLimitError e = true) :
    (editImageWithRetry op 3).2.1 = 3 ∧
    (editImageWithRetry op 3).2.2 = 1000 + 2000 ∧
    ∀ op2 maxRetries,
      (editImageWithRetry op2 maxRetries).2.1 ≤ maxRetries := by
  obtain ⟨e0, h0, r0⟩ := h 0
  obtain ⟨e1, h1, r1⟩ := h 1
  obtain ⟨e2, h2, r2⟩ := h 2
  refine ⟨?_, ?_, ?_⟩
  · rw [editImageWithRetry, retryFrom, retryFrom, retryFrom]
    simp [h0, h1, h2, r0, r1, r2]
  · rw [editImageWithRetry, retryFrom, retryFrom, retryFrom]
    simp [h0, h1, h2, r0, r1, r2]
  · intro op2 maxRetries
    have := retryFrom_calls_le op2 maxRetries maxRetries 0 (by omega)
    simpa [editImageWithRetry] using this

/-- C2, witness: the always-rate-limited operation satisfies the hypothesis,
and the theorem yields exactly 3 invocations and a 3-second total delay. -/
theorem retry_exhaustion_and_bound_witness :
    (editImageWithRetry alwaysRateLimited 3).2.1 = 3 ∧
    (editImageWithRetry alwaysRateLimited 3).2.2 = 1000 + 2000 :=
  ⟨(retry_exhaustion_and_bound alwaysRateLimited
      (fun _ => ⟨{ message := "429 Too Many Requests" }, rfl, by decide⟩)).1,
    (retry_exhaustion_and_bound alwaysRateLimited
      (fun _ => ⟨{ message := "429 Too Many Requests" }, rfl, by decide⟩)).2.1⟩

/-! ## Claim theorems: background job runner -/

/-- C3. Re-invoking the job runner for a job whose single edit step already
recorded success in its checkpoint invokes the EditBackend adapter exactly
zero additional times and returns the previously recorded step output as the
body. -/
theorem job_rerun_idempotent (backend : Unit → EditedImage) (cp : Checkpoint)
    (v : EditedImage) (h : cp.lookup "call-gemini-api" = some v) :
    (processImageFunction backend cp).1 = v ∧
    (processImageFunction backend cp).2.1 = 0 := by
  simp [processImageFunction, stepRun, h]

/-- C3, witness: on a checkpoint that already records the edit step's body,
a backend producing a different image is never invoked and the recorded body
is returned. -/
theorem job_rerun_idempotent_witness :
    (processImageFunction (fun _ => { imageData := "XXX", mimeType := "image/png" })
        checkpointDone).1 = recordedBody ∧
    (processImageFunction (fun _ => { imageData := "XXX", mimeType := "image/png" })
        checkpointDone).2.1 = 0 :=
  job_rerun_idempotent (fun _ => { imageData := "XXX", mimeType := "image/png" })
    checkpointDone recordedBody (by decide)

/-! ## Claim theorems: server actions -/

/-- C5. For every dispatch request in which any of imageData, prompt or
mimeType is empty (the falsy case of the source's string fields), the
dispatch action returns the incomplete-request validation failure with
isSuccess false, and emits zero job-creation events to the runner. -/
theorem dispatch_validation_no_event
    (send : InngestEvent → Except String (List String))
    (request : ProcessImageRequest)
    (h : request.imageData = "" ∨ request.prompt = "" ∨ request.mimeType = "") :
    processImageAction send request = (.failure "بيانات الطلب غير كاملة.", []) ∧
    (processImageAction send request).1.isSuccess = false ∧
    (processImageAction send request).2 = [] := by
  have hc : processImageAction send request =
      (.failure "بيانات الطلب غير كاملة.", []) := by
    simp only [processImageAction]
    rw [if_pos h]
  exact ⟨hc, by rw [hc]; rfl, by rw [hc]⟩

/-- C5, witness: a request with an empty prompt is rejected with the
validation message and no event reaches the runner, even though the send
channel would succeed. -/
theorem dispatch_validation_no_event_witness :
    processImageAction (fun _ => .ok ["job-123"])
        { imageData := "AAA", prompt := "", mimeType := "image/png" } =
      (.failure "بيانات الطلب غير كاملة.", []) :=
  (dispatch_validation_no_event (fun _ => .ok ["job-123"])
    { imageData := "AAA", prompt := "", mimeType := "image/png" }
    (Or.inr (Or.inl rfl))).1

/-- C6. The raw-to-enum status mapping is total: raw "completed" maps to
COMPLETED, raw "failed" to FAILED, raw "running" to PROCESSING, and every
other raw string maps to PENDING through the default branch. -/
theorem status_mapping_total :
    mapInngestStatus "completed" = .COMPLETED ∧
    mapInngestStatus "failed" = .FAILED ∧
    mapInngestStatus "running" = .PROCESSING ∧
    ∀ raw, raw ≠ "completed" → raw ≠ "failed" → raw ≠ "running" →
      mapInngestStatus raw = .PENDING := by
  refine ⟨by decide, by decide, by decide, ?_⟩
  intro raw h1 h2 h3
  simp [mapInngestStatus, h1, h2, h3]

/-- C6, witness: the unrecognized raw statuses "queued" and "not_started"
fall through to PENDING. -/
theorem status_mapping_total_witness :
    mapInngestStatus "queued" = .PENDING ∧
    mapInngestStatus "not_started" = .PENDING :=
  ⟨status_mapping_total.2.2.2 "queued" (by decide) (by decide) (by decide),
    status_mapping_total.2.2.2 "not_started" (by decide) (by decide)
      (by decide)⟩

/-- C10. The status action is total over its error cases: for every lookup
behaviour and every jobId, a throwing lookup yields the structured
status-retrieval failure, a missing job yields the structured not-found
failure, and a found job yields a structured success — in every case an
ActionState value is returned and no exception escapes. -/
theorem status_action_total_on_errors
    (get : String → Except String (Option InngestJob)) (jobId : String) :
    (∀ msg, get jobId = .error msg →
      getProcessingStatusAction get jobId =
        .failure "فشل في الحصول على حالة المعالجة.") ∧
    (get jobId = .ok none →
      getProcessingStatusAction get jobId =
        .failure "لم يتم العثور على المهمة.") ∧
    (∀ job, get jobId = .ok (some job) →
      (getProcessingStatusAction get jobId).isSuccess = true) := by
  refine ⟨?_, ?_, ?_⟩
  · intro msg hm
    simp [getProcessingStatusAction, hm]
  · intro hn
    simp [getProcessingStatusAction, hn]
  · intro job hj
    simp [getProcessingStatusAction, hj, ActionState.isSuccess]

/-- C10, witness: a lookup that throws and a lookup that finds no job both
produce the structured failure results. -/
theorem status_action_total_on_errors_witness :
    getProcessingStatusAction (fun _ => .error "ECONNREFUSED") "job-1" =
      .failure "فشل في الحصول على حالة المعالجة." ∧
    getProcessingStatusAction (fun _ => .ok none) "job-404" =
      .failure "لم يتم العثور على المهمة." :=
  ⟨(status_action_total_on_errors (fun _ => .error "ECONNREFUSED") "job-1").1
      "ECONNREFUSED" rfl,
    (status_action_total_on_errors (fun _ => .ok none) "job-404").2.1 rfl⟩

/-! ## Claim theorems: polling schedule -/

/-- C4, counterexample. With the component's 5-second interval and a
6-second response latency, the queries issued by fires 0 (at 5000 ms) and 1
(at 10000 ms) are both in flight at t = 10000 ms — the first response only
arrives at 11000 ms — so two status queries for the same job are in flight
concurrently: setInterval does not await the previous async callback. -/
theorem polling_overlap_counterexample :
    queryInFlight 5000 6000 10000 0 ∧ queryInFlight 5000 6000 10000 1 := by
  decide

/-- C4, amended. Each timer fire issues exactly one status query (query k
belongs to fire k), but the fixed setInterval schedule does not await the
previous query's result; queries are serial — at most one in flight at any
time — exactly when every response arrives within the polling interval
(positive latency at most the interval), and a latency exceeding the
interval makes two queries overlap. -/
theorem polling_serial_when_latency_within_interval
    (intervalMs latencyMs t k1 k2 : Nat)
    (hl : 0 < latencyMs) (hle : latencyMs ≤ intervalMs)
    (h1 : queryInFlight intervalMs latencyMs t k1)
    (h2 : queryInFlight intervalMs latencyMs t k2) : k1 = k2 := by
  obtain ⟨a1, b1⟩ := h1
  obtain ⟨a2, b2⟩ := h2
  unfold fireTime at a1 b1 a2 b2
  have hi : 0 < intervalMs := lt_of_lt_of_le hl hle
  have c1 : intervalMs * (k2 + 1) < intervalMs * (k1 + 2) := by
    have : intervalMs * (k1 + 1) + latencyMs ≤ intervalMs * (k1 + 2) := by
      have : intervalMs * (k1 + 2) = intervalMs * (k1 + 1) + intervalMs := by
        ring
      omega
    omega
  have c2 : intervalMs * (k1 + 1) < intervalMs * (k2 + 2) := by
    have : intervalMs * (k2 + 1) + latencyMs ≤ intervalMs * (k2 + 2) := by
      have : intervalMs * (k2 + 2) = intervalMs * (k2 + 1) + intervalMs := by
        ring
      omega
    omega
  have d1 : k2 + 1 < k1 + 2 := Nat.lt_of_mul_lt_mul_left c1
  have d2 : k1 + 1 < k2 + 2 := Nat.lt_of_mul_lt_mul_left c2
  omega

/-- C4, witness: with a 5-second response latency matching the 5-second
interval, the hypotheses hold at fire 0 and time 7000 ms, and the theorem
identifies any two queries in flight there. -/
theorem polling_serial_when_latency_within_interval_witness :
    (0 : Nat) < 5000 ∧ (5000 : Nat) ≤ 5000 ∧
    queryInFlight 5000 5000 7000 0 ∧ (0 : Nat) = 0 :=
  ⟨by decide, by decide, by decide,
    polling_serial_when_latency_within_interval 5000 5000 7000 0 0
      (by decide) (by decide) (by decide) (by decide)⟩

/-! ## Claim theorems: preview-resource discipline -/

theorem createdUrls_append (es1 es2 : List UrlEffect) :
    createdUrls (es1 ++ es2) = createdUrls es1 ++ createdUrls es2 :=
  List.filterMap_append es1 es2 _

theorem revokedUrls_append (es1 es2 : List UrlEffect) :
    revokedUrls (es1 ++ es2) = revokedUrls es1 ++ revokedUrls es2 :=
  List.filterMap_append es1 es2 _

theorem winv_frame (w : World) (es : List UrlEffect)
    (s2 : ImageEditorState) (hI : WInv w es)
    (hu : s2.uploadedFile = w.st.uploadedFile) :
    WInv { st := s2, next := w.next } es := by
  obtain ⟨h1, h2, h3, h4⟩ := hI
  refine ⟨?_, ?_, h3, h4⟩
  · intro f hf
    exact h1 f (hu ▸ hf)
  · intro u
    have : previews s2 = previews w.st := by
      simp [previews, hu]
    rw [this]
    exact h2 u

theorem winv_step (w : World) (es : List UrlEffect) (a : ImageEditorAction)
    (hI : WInv w es) (ha : admissible w a = true) :
    WInv (stepW w a).1 (es ++ (stepW w a).2) := by
  obtain ⟨h1, h2, h3, h4⟩ := hI
  cases a with
  | VALIDATION_STARTED =>
    have hu : w.st.uploadedFile = none := by
      simpa [admissible] using ha
    simp only [stepW, imageEditorReducerU, List.append_nil]
    exact winv_frame w es _ ⟨h1, h2, h3, h4⟩ (by simp [initialState, hu])
  | VALIDATION_SUCCESS file =>
    have hu : w.st.uploadedFile = none := by
      simpa [admissible] using ha
    have hpv : previews w.st = [] := by simp [previews, hu]
    simp only [stepW, imageEditorReducerU, WInv]
    refine ⟨?_, ?_, ?_, ?_⟩
    · intro f hf
      injection hf with hf2
      rw [← hf2]
      exact Nat.lt_succ_self _
    · intro u
      rw [createdUrls_append, revokedUrls_append, List.count_append,
        List.count_append]
      have hco : (createdUrls [UrlEffect.create file w.next]).count u =
          if u = w.next then 1 else 0 := by
        by_cases h : u = w.next <;> simp [createdUrls, List.count_cons, h]
      have hrv : (revokedUrls [UrlEffect.create file w.next]).count u = 0 := by
        simp [revokedUrls]
      rw [hco, hrv]
      simp only [previews, List.mem_singleton]
      have h2u := h2 u
      rw [hpv] at h2u
      simp only [List.not_mem_nil, if_false] at h2u
      by_cases h : u = w.next
      · subst h
        have hc0 : (createdUrls es).count w.next = 0 :=
          h3 w.next (Nat.le_refl _)
        simp only [if_pos rfl]
        omega
      · rw [if_neg h]
        omega
    · intro u hnu
      rw [createdUrls_append, List.count_append]
      have : (createdUrls [UrlEffect.create file w.next]).count u = 0 := by
        have : u ≠ w.next := by omega
        simp [createdUrls, List.count_cons, this]
      rw [this, h3 u (by omega)]
    · intro u
      rw [createdUrls_append, List.count_append]
      by_cases h : u = w.next
      · subst h
        have hc0 : (createdUrls es).count w.next = 0 :=
          h3 w.next (Nat.le_refl _)
        have hc1 : (createdUrls [UrlEffect.create file w.next]).count w.next
            ≤ 1 := by
          simp [createdUrls, List.count_cons]
        omega
      · have hc1 : (createdUrls [UrlEffect.create file w.next]).count u = 0 := by
          simp [createdUrls, List.count_cons, h]
        rw [hc1]
        simpa using h4 u
  | VALIDATION_FAILURE e =>
    simp only [stepW, imageEditorReducerU, List.append_nil]
    exact winv_frame w es _ ⟨h1, h2, h3, h4⟩ rfl
  | SET_PROMPT p =>
    simp only [stepW, imageEditorReducerU, List.append_nil]
    exact winv_frame w es _ ⟨h1, h2, h3, h4⟩ rfl
  | PROCESS_IMAGE_STARTED =>
    simp only [stepW, imageEditorReducerU, List.append_nil]
    exact winv_frame w es _ ⟨h1, h2, h3, h4⟩ rfl
  | PROCESS_IMAGE_DISPATCH_SUCCESS j =>
    simp only [stepW, imageEditorReducerU, List.append_nil]
    exact winv_frame w es _ ⟨h1, h2, h3, h4⟩ rfl
  | PROCESS_IMAGE_POLLING_SUCCESS url =>
    simp only [stepW, imageEditorReducerU, List.append_nil]
    exact winv_frame w es _ ⟨h1, h2, h3, h4⟩ rfl
  | PROCESS_IMAGE_FAILURE e =>
    simp only [stepW, imageEditorReducerU, List.append_nil]
    exact winv_frame w es _ ⟨h1, h2, h3, h4⟩ rfl
  | RESET =>
    cases hu : w.st.uploadedFile with
    | none =>
      simp only [stepW, imageEditorReducerU, hu, List.append_nil]
      exact winv_frame w es _ ⟨h1, h2, h3, h4⟩ (by simp [initialState, hu])
    | some fl =>
      have hpv : previews w.st = [fl.preview] := by simp [previews, hu]
      simp only [stepW, imageEditorReducerU, hu, WInv]
      refine ⟨?_, ?_, ?_, ?_⟩
      · intro f hf
        simp [initialState] at hf
      · intro u
        rw [createdUrls_append, revokedUrls_append, List.count_append,
          List.count_append]
        have hco : (createdUrls [UrlEffect.revoke fl.preview]).count u = 0 := by
          simp [createdUrls]
        have hrv : (revokedUrls [UrlEffect.revoke fl.preview]).count u =
            if u = fl.preview then 1 else 0 := by
          by_cases h : u = fl.preview <;> simp [revokedUrls, List.count_cons, h]
        have hpv2 : previews initialState = [] := by
          simp [previews, initialState]
        rw [hco, hrv, hpv2]
        have h2u := h2 u
        rw [hpv] at h2u
        simp only [List.mem_singleton, List.not_mem_nil, if_false] at h2u ⊢
        by_cases h : u = fl.preview
        · simp [h] at h2u ⊢
          omega
        · simp [h] at h2u ⊢
          omega
      · intro u hnu
        rw [createdUrls_append, List.count_append]
        have : (createdUrls [UrlEffect.revoke fl.preview]).count u = 0 := by
          simp [createdUrls]
        rw [this, h3 u hnu]
      · intro u
        rw [createdUrls_append, List.count_append]
        have : (createdUrls [UrlEffect.revoke fl.preview]).count u = 0 := by
          simp [createdUrls]
        rw [this]
        simpa using h4 u

theorem winv_run (as : List ImageEditorAction) :
    ∀ w es, WInv w es → admissibleTrace w as = true →
      WInv (runW w as).1 (es ++ (runW w as).2) := by
  induction as with
  | nil =>
    intro w es h _
    simpa [runW] using h
  | cons a as ih =>
    intro w es h hadm
    simp only [admissibleTrace, Bool.and_eq_true] at hadm
    have h1 := winv_step w es a h hadm.1
    have h2 := ih (stepW w a).1 (es ++ (stepW w a).2) h1 hadm.2
    simp only [runW]
    simpa [List.append_assoc] using h2

/-- C7, counterexample. From the initial world, VALIDATION_SUCCESS allocates
preview object-URL 0 and enters a state holding it; dispatching
VALIDATION_STARTED then transitions out of that preview-holding state,
discards the uploaded file, and performs no revoke call: the transition out
of a state holding a live preview does not release the resource, so the
sequence leaks it. -/
theorem preview_leak_counterexample :
    (stepW { st := initialState, next := 0 } (.VALIDATION_SUCCESS 5)).1.st.uploadedFile =
      some { file := 5, preview := 0 } ∧
    (stepW (stepW { st := initialState, next := 0 } (.VALIDATION_SUCCESS 5)).1
        .VALIDATION_STARTED).2 = [] ∧
    (stepW (stepW { st := initialState, next := 0 } (.VALIDATION_SUCCESS 5)).1
        .VALIDATION_STARTED).1.st.uploadedFile = none := by
  decide

/-- C7, amended. Under the component's dispatch discipline — the upload
surface emitting VALIDATION_STARTED and VALIDATION_SUCCESS is rendered only
while no preview is held — every action sequence from the initial world
maintains the resource discipline: each preview object URL is created at
most once, revoked at most once (never twice), and the created URLs are
exactly the currently held preview plus the revoked ones — so the preview is
released exactly once, at the RESET that discards the file, and no
admissible sequence leaks a preview or releases one twice. -/
theorem preview_resource_discipline (as : List ImageEditorAction)
    (h : admissibleTrace { st := initialState, next := 0 } as = true) :
    (∀ u, (createdUrls (runW { st := initialState, next := 0 } as).2).count u ≤ 1) ∧
    (∀ u, (revokedUrls (runW { st := initialState, next := 0 } as).2).count u ≤ 1) ∧
    (∀ u, (createdUrls (runW { st := initialState, next := 0 } as).2).count u =
      (if u ∈ previews (runW { st := initialState, next := 0 } as).1.st
        then 1 else 0) +
      (revokedUrls (runW { st := initialState, next := 0 } as).2).count u) := by
  have h0 : WInv { st := initialState, next := 0 } [] := by
    refine ⟨?_, ?_, ?_, ?_⟩ <;>
      simp [initialState, previews, createdUrls, revokedUrls]
  have hr := winv_run as { st := initialState, next := 0 } [] h0 h
  rw [List.nil_append] at hr
  obtain ⟨g1, g2, g3, g4⟩ := hr
  refine ⟨g4, ?_, g2⟩
  intro u
  have h2u := g2 u
  have h4u := g4 u
  by_cases hm : u ∈ previews (runW { st := initialState, next := 0 } as).1.st
  · rw [if_pos hm] at h2u
    omega
  · rw [if_neg hm] at h2u
    omega

/-- C7, witness: the admissible sequence trC7 (upload, edit prompt, start
processing, reset, fresh upload interaction) creates preview URL 0 once and
revokes it once. -/
theorem preview_resource_discipline_witness :
    (createdUrls (runW { st := initialState, next := 0 } trC7).2).count 0 ≤ 1 ∧
    (revokedUrls (runW { st := initialState, next := 0 } trC7).2).count 0 ≤ 1 :=
  ⟨(preview_resource_discipline trC7 (by decide)).1 0,
    (preview_resource_discipline trC7 (by decide)).2.1 0⟩

end MudulAI
